import Mathlib

/-!
Verification of the trading-bot core in `src/python.py` (signal evaluation,
trade parameter calculation, trade lifecycle, suspension registry).

Numbers are modelled as exact rationals (`ℚ`).  Python's built-in `round`
performs correct rounding to the requested number of decimal places with
ties resolved to the even choice ("banker's rounding"); `halfEven` below is
that integer rounding.  Timestamps (`datetime.now()` and the ISO strings
derived from it) are modelled as integers (seconds); `timedelta(hours=2)`
is `7200`.  Python dicts keyed by symbol are modelled as association lists
without duplicate keys (`dictInsert` overwrites in place, as dict assignment
does).
-/

namespace VPScope

/-- Round a rational to the nearest integer, ties to even — the rounding
used by Python's built-in `round`. -/
def halfEven (q : ℚ) : ℤ :=
  let f := ⌊q⌋
  if q - f < 1/2 then f
  else if 1/2 < q - f then f + 1
  else if f % 2 = 0 then f else f + 1

/-- Python's `round(q, n)`: round to `n` decimal places, ties to even. -/
def round_to (n : ℕ) (q : ℚ) : ℚ :=
  (halfEven (q * 10 ^ n) : ℚ) / 10 ^ n

/-- `custom_round` from `src/python.py` lines 91–103: tiered precision. -/
def custom_round (value : ℚ) : ℚ :=
  if value ≥ 1000 then (halfEven value : ℚ)
  else if value ≥ 100 then round_to 2 value
  else if value ≥ 10 then round_to 3 value
  else if value ≥ 1 then round_to 3 value
  else if value ≥ 0.1 then round_to 5 value
  else round_to 6 value

/-- One indicator snapshot as produced by `fetch_indicators` (lines 146–172).
`RSI.prev` is fetched with `.get(..., None)` and may be absent; the
Bollinger-band fields are read back with `.get` in the entry conditions, and
the upstream library may deliver `None`, so they are optional too. -/
structure Snapshot where
  close_price : ℚ
  ema5 : ℚ
  ema10 : ℚ
  ema20 : ℚ
  ema200 : ℚ
  rsi : ℚ
  rsiPrev : Option ℚ
  macd : ℚ
  macdSignal : ℚ
  bbUpper : Option ℚ
  bbLower : Option ℚ
  deriving DecidableEq

/-- `long_entry_conditions` (lines 174–190). -/
def long_entry_conditions (i5 i15 i30 i1h : Snapshot) : Bool :=
  i5.bbUpper.isSome &&
  (decide (i5.close_price > i5.ema10) && decide (i5.ema10 > i5.ema20) &&
   decide (i5.ema20 > i5.ema200) &&
   decide (i5.rsi > 65) &&
   decide ((i5.ema10 - i5.ema200) / i5.ema10 ≤ 0.025) &&
   decide (i5.macd > i5.macdSignal) &&
   decide (i15.close_price > i15.ema5) && decide (i15.ema5 > i15.ema200) &&
   (match i15.rsiPrev with
    | none => false
    | some p => decide (i15.rsi > p)) &&
   decide (i30.close_price > i30.ema5) && decide (i30.ema5 > i30.ema200) &&
   (match i30.rsiPrev with
    | none => false
    | some p => decide (i30.rsi > p)) &&
   decide (i1h.close_price > i1h.ema5) && decide (i1h.ema5 > i1h.ema200) &&
   (match i1h.rsiPrev with
    | none => false
    | some p => decide (i1h.rsi > p)))

/-- `short_entry_conditions` (lines 192–208). -/
def short_entry_conditions (i5 i15 i30 i1h : Snapshot) : Bool :=
  i5.bbLower.isSome &&
  (decide (i5.close_price < i5.ema10) && decide (i5.ema10 < i5.ema20) &&
   decide (i5.ema20 < i5.ema200) &&
   decide (i5.rsi < 35) &&
   decide ((i5.ema200 - i5.ema10) / i5.ema200 ≤ 0.025) &&
   decide (i5.macd < i5.macdSignal) &&
   decide (i15.close_price < i15.ema5) && decide (i15.ema5 < i15.ema200) &&
   (match i15.rsiPrev with
    | none => false
    | some p => decide (i15.rsi < p)) &&
   decide (i30.close_price < i30.ema5) && decide (i30.ema5 < i30.ema200) &&
   (match i30.rsiPrev with
    | none => false
    | some p => decide (i30.rsi < p)) &&
   decide (i1h.close_price < i1h.ema5) && decide (i1h.ema5 < i1h.ema200) &&
   (match i1h.rsiPrev with
    | none => false
    | some p => decide (i1h.rsi < p)))

inductive Side where
  | long
  | short
  deriving DecidableEq

/-- The long-first, short-only-if-long-failed branch of `process_new_trades`
(lines 431–438), abstracted to the decision it takes. -/
def signal_decision (i5 i15 i30 i1h : Snapshot) : Option Side :=
  if long_entry_conditions i5 i15 i30 i1h then some .long
  else if short_entry_conditions i5 i15 i30 i1h then some .short
  else none

/-- The output record of `calculate_trade_parameters`. -/
structure TradeParams where
  entry : ℚ
  stop_loss : ℚ
  tp1 : ℚ
  tp2 : ℚ
  tp3 : ℚ
  deriving DecidableEq

/-- `calculate_trade_parameters` (lines 210–233).  Note that `entry` is the
raw close price; only the stop loss and take profits go through
`custom_round`. -/
def calculate_trade_parameters (indicators : Snapshot) (side : Side) :
    TradeParams :=
  let close_price := indicators.close_price
  match side with
  | .long =>
    let stoploss := custom_round (close_price * 0.98)
    let risk := close_price - stoploss
    { entry := close_price
      stop_loss := stoploss
      tp1 := custom_round (close_price + risk * 1.68)
      tp2 := custom_round (close_price + risk * 2.68)
      tp3 := custom_round (close_price + risk * 3.68) }
  | .short =>
    let stoploss := custom_round (close_price * 1.02)
    let risk := stoploss - close_price
    { entry := close_price
      stop_loss := stoploss
      tp1 := custom_round (close_price - risk * 1.68)
      tp2 := custom_round (close_price - 2.68 * risk)
      tp3 := custom_round (close_price - 3.68 * risk) }

/-! ### Symbol-keyed dictionaries

Python dicts keyed by symbol, as association lists without duplicate keys.
`dictInsert` overwrites in place (as dict assignment does); `dictErase`
removes the key (Python `del` raises `KeyError` when the key is absent —
every call site below guarantees presence, so erasure is modelled total). -/

def dictLookup {α : Type} : List (String × α) → String → Option α
  | [], _ => none
  | (k', v) :: rest, k => if k' = k then some v else dictLookup rest k

def dictInsert {α : Type} : List (String × α) → String → α → List (String × α)
  | [], k, v => [(k, v)]
  | (k', v') :: rest, k, v =>
    if k' = k then (k, v) :: rest else (k', v') :: dictInsert rest k v

def dictErase {α : Type} : List (String × α) → String → List (String × α)
  | [], _ => []
  | (k', v') :: rest, k => if k' = k then rest else (k', v') :: dictErase rest k

/-! ### Trade state -/

/-- `trade['status']` — Python strings `'open'` / `'closed'` (`open` is a Lean
keyword, hence `opened`). -/
inductive TStatus where
  | opened
  | closed
  deriving DecidableEq

/-- The local `result` variable of `update_trade_status` — `'win'` / `'loss'`. -/
inductive TResult where
  | win
  | loss
  deriving DecidableEq

/-- `result` of a historical record — `'pending'` / `'win'` / `'loss'`. -/
inductive HResult where
  | pending
  | win
  | loss
  deriving DecidableEq

/-- An active-trade record as built by `add_new_trade` (lines 239–278) and
mutated by `update_trade_status`.  The keys `hit_tps` and `sl_message_sent`
are absent until first written; absence is modelled as `[]` / `false`
(matching `trade.get('hit_tps', [])` and `'sl_message_sent' not in trade`).
`update_trade_status` never writes a `result` key on the trade dict, so the
trade carries none. -/
structure Trade where
  side : Side
  entry : ℚ
  stop_loss : ℚ
  tp1 : ℚ
  tp2 : ℚ
  tp3 : ℚ
  start_time : ℤ
  status : TStatus
  end_time : Option ℤ
  hit_tps : List String
  sl_message_sent : Bool
  deriving DecidableEq

/-- The fields of a historical record (`{**trade_params, 'end_time': None,
'result': 'pending'}`, line 274) that the lifecycle reads or writes. -/
structure HistRecord where
  start_time : ℤ
  status : TStatus
  end_time : Option ℤ
  result : HResult
  deriving DecidableEq

/-- One entry of `suspend.json`: `{'trade': ..., 'suspend_until': ...}`. -/
structure SuspendEntry where
  trade : Trade
  suspend_until : ℤ
  deriving DecidableEq

/-! ### Trade lifecycle: `update_trade_status` (lines 280–388) -/

/-- Outcome of the in-place mutation part of `update_trade_status`
(lines 281–368): the mutated trade, the local `closed` / `result`
variables, which alerts were sent this tick, and the new content of
`suspend.json`. -/
structure StepOut where
  trade : Trade
  closed : Bool
  result : Option TResult
  slAlert : Bool
  tpAlert : Bool
  suspendFile : List (String × SuspendEntry)
  deriving DecidableEq

/-- Lines 281–368 of `update_trade_status`: evaluate the stop-loss and
TP1 transitions against the current price, mutate the trade, send alerts,
and on a TP1 hit write the 2-hour suspension (`timedelta(hours=2)` =
7200 s) into `suspend.json`. -/
def update_trade_status_core (symbol : String) (trade : Trade)
    (current_price : ℚ) (suspendFile : List (String × SuspendEntry))
    (now : ℤ) : StepOut :=
  match trade.side with
  | .long =>
    if current_price ≤ trade.stop_loss then
      let t1 := if trade.sl_message_sent then trade
                else { trade with sl_message_sent := true }
      let t2 := { t1 with status := .closed, end_time := some now }
      { trade := t2, closed := true, result := some .loss,
        slAlert := !trade.sl_message_sent, tpAlert := false,
        suspendFile := suspendFile }
    else if trade.tp1 ≤ current_price ∧ "TP1" ∉ trade.hit_tps then
      let t1 := { trade with hit_tps := trade.hit_tps ++ ["TP1"] }
      let t2 := { t1 with status := .closed, end_time := some now }
      { trade := t2, closed := true, result := some .win,
        slAlert := false, tpAlert := true,
        suspendFile :=
          dictInsert suspendFile symbol
            { trade := t2, suspend_until := now + 7200 } }
    else
      { trade := trade, closed := false, result := none, slAlert := false,
        tpAlert := false, suspendFile := suspendFile }
  | .short =>
    if trade.stop_loss ≤ current_price then
      let t1 := if trade.sl_message_sent then trade
                else { trade with sl_message_sent := true }
      let t2 := { t1 with status := .closed, end_time := some now }
      { trade := t2, closed := true, result := some .loss,
        slAlert := !trade.sl_message_sent, tpAlert := false,
        suspendFile := suspendFile }
    else if current_price ≤ trade.tp1 ∧ "TP1" ∉ trade.hit_tps then
      let t1 := { trade with hit_tps := trade.hit_tps ++ ["TP1"] }
      let t2 := { t1 with status := .closed, end_time := some now }
      { trade := t2, closed := true, result := some .win,
        slAlert := false, tpAlert := true,
        suspendFile :=
          dictInsert suspendFile symbol
            { trade := t2, suspend_until := now + 7200 } }
    else
      { trade := trade, closed := false, result := none, slAlert := false,
        tpAlert := false, suspendFile := suspendFile }

/-- The loop over `historical_data[symbol]` (lines 372–380): update the
first record that is still `'open'` with the closing trade's start time.
Its end time becomes the trade's, or — when the closing trade carries no
end time — `datetime.now()` as a fallback, with an error logged (the
second component).  Records after the first match are untouched
(`break`); if nothing matches, the list is returned unchanged and nothing
is logged. -/
def updateHistList (records : List HistRecord) (start : ℤ)
    (tradeEnd : Option ℤ) (result : HResult) (now : ℤ) :
    List HistRecord × Bool :=
  match records with
  | [] => ([], false)
  | h :: hs =>
    if h.status = .opened ∧ h.start_time = start then
      match tradeEnd with
      | some e => ({ h with end_time := some e, result := result } :: hs, false)
      | none => ({ h with end_time := some now, result := result } :: hs, true)
    else
      let r := updateHistList hs start tradeEnd result now
      (h :: r.1, r.2)

/-- The local `result` written into the matched historical record.  When
`closed` is true the core always produced `some` result; `none` cannot
reach the write (kept total with `pending`, the value the record already
holds). -/
def hresult_of : Option TResult → HResult
  | some .win => .win
  | some .loss => .loss
  | none => .pending

/-- Result state of a full `update_trade_status` call. -/
structure UpdateOut where
  trade : Trade
  closed : Bool
  slAlert : Bool
  tpAlert : Bool
  winAlert : Bool
  histErrLogged : Bool
  suspendFile : List (String × SuspendEntry)
  historical : List (String × List HistRecord)
  active : List (String × Trade)
  deriving DecidableEq

/-- All of `update_trade_status` (lines 280–388).  `none` models the
uncaught `KeyError` of `historical_data[symbol]` when the symbol has no
history list (caught by `manage_active_trades`, but the close block does
not run). -/
def update_trade_status (symbol : String) (trade : Trade)
    (current_price : ℚ) (historical : List (String × List HistRecord))
    (active : List (String × Trade))
    (suspendFile : List (String × SuspendEntry)) (now : ℤ) :
    Option UpdateOut :=
  let s := update_trade_status_core symbol trade current_price suspendFile now
  if s.closed then
    match dictLookup historical symbol with
    | none => none
    | some records =>
      let u := updateHistList records trade.start_time s.trade.end_time
        (hresult_of s.result) now
      some { trade := s.trade, closed := true, slAlert := s.slAlert,
             tpAlert := s.tpAlert, winAlert := s.result = some .win,
             histErrLogged := u.2, suspendFile := s.suspendFile,
             historical := dictInsert historical symbol u.1,
             active := dictErase active symbol }
  else
    some { trade := s.trade, closed := false, slAlert := s.slAlert,
           tpAlert := s.tpAlert, winAlert := false, histErrLogged := false,
           suspendFile := s.suspendFile, historical := historical,
           active := active }

/-! ### Suspension registry (lines 404–415) -/

/-- Line 405: keep only the pairs whose suspension is still in the
future; a pair with `current_time >= suspend_until` is removed. -/
def expire_suspended (m : List (String × SuspendEntry)) (now : ℤ) :
    List (String × SuspendEntry) :=
  m.filter (fun p => decide (now < p.2.suspend_until))

/-- Whether the entry scan skips the symbol at time `now`: membership in
the suspension map after this cycle's expiry (lines 404–415). -/
def is_suspended (m : List (String × SuspendEntry)) (symbol : String)
    (now : ℤ) : Bool :=
  (dictLookup (expire_suspended m now) symbol).isSome

/-! ### Opening trades: `add_new_trade` (lines 239–278) and the per-symbol
body of `process_new_trades` (lines 410–438) -/

/-- The trade record assembled by `add_new_trade`: the computed
parameters plus `side`, `start_time = datetime.now()` and
`status = 'open'`. -/
def trade_of_params (p : TradeParams) (side : Side) (now : ℤ) : Trade :=
  { side := side, entry := p.entry, stop_loss := p.stop_loss, tp1 := p.tp1,
    tp2 := p.tp2, tp3 := p.tp3, start_time := now, status := .opened,
    end_time := none, hit_tps := [], sl_message_sent := false }

/-- The record appended to the symbol's history on open
(`{**trade_params, 'end_time': None, 'result': 'pending'}`, line 274). -/
def histrecord_of (t : Trade) : HistRecord :=
  { start_time := t.start_time, status := t.status, end_time := none,
    result := .pending }

/-- State effect of `add_new_trade`: store the trade under its symbol and
append the pending historical record (`setdefault(symbol, []).append`). -/
def add_new_trade (symbol : String) (p : TradeParams) (side : Side)
    (active : List (String × Trade))
    (historical : List (String × List HistRecord)) (now : ℤ) :
    List (String × Trade) × List (String × List HistRecord) :=
  let t := trade_of_params p side now
  (dictInsert active symbol t,
   dictInsert historical symbol
     ((dictLookup historical symbol).getD [] ++ [histrecord_of t]))

/-- One iteration of the `for symbol in coin_pairs` loop of
`process_new_trades` (lines 410–438).  `fetched` stands for the four
indicator fetches; `none` models any fetch failing (line 427). -/
def processSymbol (symbol : String)
    (suspended_pairs : List (String × SuspendEntry))
    (active : List (String × Trade))
    (historical : List (String × List HistRecord))
    (fetched : Option (Snapshot × Snapshot × Snapshot × Snapshot))
    (now : ℤ) :
    List (String × Trade) × List (String × List HistRecord) :=
  if (dictLookup suspended_pairs symbol).isSome then (active, historical)
  else if (dictLookup active symbol).isSome then (active, historical)
  else
    match fetched with
    | none => (active, historical)
    | some (i5, i15, i30, i1h) =>
      if long_entry_conditions i5 i15 i30 i1h then
        add_new_trade symbol (calculate_trade_parameters i5 .long) .long
          active historical now
      else if short_entry_conditions i5 i15 i30 i1h then
        add_new_trade symbol (calculate_trade_parameters i5 .short) .short
          active historical now
      else (active, historical)

/-! ### The monitor loop's view of one trade (lines 447–485) -/

/-- One monitor tick: a fresh close price and its wall-clock time. -/
structure TickIn where
  price : ℚ
  now : ℤ

/-- One pass of `manage_active_trades` over a single trade: a trade
already marked closed is only swept (no alert); otherwise
`update_trade_status` runs (its in-place mutation part — alerts and trade
state — is what the stop-loss one-shot concerns). -/
def monitorStep (symbol : String)
    (st : Trade × List (String × SuspendEntry)) (tick : TickIn) :
    (Trade × List (String × SuspendEntry)) × Bool :=
  if st.1.status = .closed then (st, false)
  else
    let r := update_trade_status_core symbol st.1 tick.price st.2 tick.now
    ((r.trade, r.suspendFile), r.slAlert)

/-- Number of stop-loss alerts emitted over a sequence of monitor ticks. -/
def slAlertCount (symbol : String) :
    Trade × List (String × SuspendEntry) → List TickIn → ℕ
  | _, [] => 0
  | st, t :: ts =>
    let s := monitorStep symbol st t
    (if s.2 then 1 else 0) + slAlertCount symbol s.1 ts

/-! ## Sample inputs used by witnesses and counterexamples -/

/-- A snapshot with all optional indicators present. -/
def baseSnap : Snapshot :=
  { close_price := 100, ema5 := 90, ema10 := 90, ema20 := 85, ema200 := 88,
    rsi := 70, rsiPrev := some 60, macd := 2, macdSignal := 1,
    bbUpper := some 110, bbLower := some 90 }

/-- A snapshot whose previous RSI is absent. -/
def snapNoPrev : Snapshot := { baseSnap with rsiPrev := none }

/-- A snapshot whose close price is not a fixed point of the tiered
rounding. -/
def snapC1 : Snapshot := { baseSnap with close_price := 1.23456 }

/-- A snapshot with a very small close price. -/
def snapMicro : Snapshot := { baseSnap with close_price := 1 / 1000000 }

/-! ## Claims -/

/-- Claim C2 (counterexample): `custom_round 0.0012345` is not the
`0.001235` the spec expects.  `0.0012345 * 10^6 = 1234.5` is an exact
rounding tie, which Python's `round` resolves to the even integer `1234`
(and the binary64 value of the literal `0.0012345` lies slightly below
the decimal tie, so CPython also returns `0.001234`). -/
theorem C2_counterexample : custom_round (0.0012345 : ℚ) ≠ 0.001235 := by
  norm_num [custom_round, round_to, halfEven]

/-- Claim C2 (amended): the tiered rounding sends 1500, 150.456, 15.4567,
1.23456, 0.123456 and 0.0012345 to 1500, 150.46, 15.457, 1.235, 0.12346
and 0.001234 respectively — the last value is a tie rounded to the even
choice. -/
theorem C2_rounding_amended :
    custom_round (1500 : ℚ) = 1500 ∧
    custom_round (150.456 : ℚ) = 150.46 ∧
    custom_round (15.4567 : ℚ) = 15.457 ∧
    custom_round (1.23456 : ℚ) = 1.235 ∧
    custom_round (0.123456 : ℚ) = 0.12346 ∧
    custom_round (0.0012345 : ℚ) = 0.001234 := by
  refine ⟨?_, ?_, ?_, ?_, ?_, ?_⟩ <;>
    norm_num [custom_round, round_to, halfEven]

/-- Claim C7: when the previous RSI is absent on any of the 15m, 30m or
1h snapshots, both `long_entry_conditions` and `short_entry_conditions`
are false, whatever the other indicator values are. -/
theorem C7_no_prev_rsi_no_signal (i5 i15 i30 i1h : Snapshot)
    (h : i15.rsiPrev = none ∨ i30.rsiPrev = none ∨ i1h.rsiPrev = none) :
    long_entry_conditions i5 i15 i30 i1h = false ∧
    short_entry_conditions i5 i15 i30 i1h = false := by
  rcases h with h | h | h <;>
    simp [long_entry_conditions, short_entry_conditions, h]

/-- Claim C7 witness: concrete snapshots with the 15m previous RSI
absent. -/
theorem C7_witness :
    (snapNoPrev.rsiPrev = none ∨ baseSnap.rsiPrev = none ∨
      baseSnap.rsiPrev = none) ∧
    (long_entry_conditions baseSnap snapNoPrev baseSnap baseSnap = false ∧
      short_entry_conditions baseSnap snapNoPrev baseSnap baseSnap = false) :=
  ⟨Or.inl rfl,
   C7_no_prev_rsi_no_signal baseSnap snapNoPrev baseSnap baseSnap (Or.inl rfl)⟩

/-- Claim C8: the long and short entry conditions are never both true,
and the decision taken by `process_new_trades` evaluates long first —
it is `long` exactly when the long conditions hold, and `short` exactly
when the long conditions failed and the short conditions hold. -/
theorem C8_long_short_exclusive_order (i5 i15 i30 i1h : Snapshot) :
    ¬(long_entry_conditions i5 i15 i30 i1h = true ∧
      short_entry_conditions i5 i15 i30 i1h = true) ∧
    (signal_decision i5 i15 i30 i1h = some .long ↔
      long_entry_conditions i5 i15 i30 i1h = true) ∧
    (signal_decision i5 i15 i30 i1h = some .short ↔
      (long_entry_conditions i5 i15 i30 i1h = false ∧
       short_entry_conditions i5 i15 i30 i1h = true)) := by
  have hex : ¬(long_entry_conditions i5 i15 i30 i1h = true ∧
      short_entry_conditions i5 i15 i30 i1h = true) := by
    rintro ⟨hl, hs⟩
    simp only [long_entry_conditions, Bool.and_eq_true, decide_eq_true_eq] at hl
    simp only [short_entry_conditions, Bool.and_eq_true, decide_eq_true_eq] at hs
    linarith [hl.2.1.1.1.1.1.1.1.1.1.1.1.1.1.1, hs.2.1.1.1.1.1.1.1.1.1.1.1.1.1.1]
  refine ⟨hex, ?_, ?_⟩ <;>
    · unfold signal_decision
      by_cases hl : long_entry_conditions i5 i15 i30 i1h = true <;>
        by_cases hs : short_entry_conditions i5 i15 i30 i1h = true <;>
          simp_all

/-- Claim C10: the entry conditions read the short-timeframe Bollinger
fields only through their presence — replacing one present `BB.upper`
value by another never changes the long decision, and likewise `BB.lower`
for the short decision. -/
theorem C10_bb_value_noninterference (i5 i15 i30 i1h : Snapshot)
    (u v w x : ℚ) :
    long_entry_conditions { i5 with bbUpper := some u } i15 i30 i1h =
      long_entry_conditions { i5 with bbUpper := some v } i15 i30 i1h ∧
    short_entry_conditions { i5 with bbLower := some w } i15 i30 i1h =
      short_entry_conditions { i5 with bbLower := some x } i15 i30 i1h :=
  ⟨rfl, rfl⟩

/-- Claim C5: a symbol already present in the active-trade dict is
skipped by the entry scan — the active set and the historical data are
returned unchanged, so a second open trade for the symbol can never be
created. -/
theorem C5_no_duplicate_open (symbol : String)
    (susp : List (String × SuspendEntry)) (active : List (String × Trade))
    (hist : List (String × List HistRecord))
    (fetched : Option (Snapshot × Snapshot × Snapshot × Snapshot)) (now : ℤ)
    (h : (dictLookup active symbol).isSome = true) :
    processSymbol symbol susp active hist fetched now = (active, hist) := by
  unfold processSymbol
  by_cases hs : (dictLookup susp symbol).isSome = true <;> simp [hs, h]

/-- A concrete open trade used by witnesses. -/
def tradeW : Trade :=
  { side := .long, entry := 100, stop_loss := 98, tp1 := 103.36,
    tp2 := 105.36, tp3 := 106.72, start_time := 0, status := .opened,
    end_time := none, hit_tps := [], sl_message_sent := false }

/-- Claim C5 witness: with `"BTCUSDT"` active, scanning it changes
nothing. -/
theorem C5_witness :
    (dictLookup [("BTCUSDT", tradeW)] "BTCUSDT").isSome = true ∧
    processSymbol "BTCUSDT" [] [("BTCUSDT", tradeW)] []
        (some (baseSnap, baseSnap, baseSnap, baseSnap)) 0 =
      ([("BTCUSDT", tradeW)], []) :=
  ⟨rfl,
   C5_no_duplicate_open "BTCUSDT" [] [("BTCUSDT", tradeW)] []
     (some (baseSnap, baseSnap, baseSnap, baseSnap)) 0 rfl⟩

/-- Claim C1 (counterexample): the entry price is returned raw — it does
not pass through the tiered rounding.  At close 1.23456 the returned
entry is 1.23456 while the tiered rounding of it is 1.235. -/
theorem C1_counterexample :
    (calculate_trade_parameters snapC1 .long).entry ≠
      custom_round ((calculate_trade_parameters snapC1 .long).entry) := by
  norm_num [calculate_trade_parameters, snapC1, baseSnap, custom_round,
    round_to, halfEven]

/-- Claim C1 (amended): for a positive close price the computed
parameters follow the spec formulas — long: stop-loss =
round(close × 0.98), risk = entry − stop-loss, TPs = round(entry + risk ×
{1.68, 2.68, 3.68}); short mirrored — with stop-loss and the three take
profits passing through the tiered rounding, while the entry is the raw
close price, not rounded. -/
theorem C1_trade_parameters_amended (ind : Snapshot) (side : Side)
    (hpos : 0 < ind.close_price) :
    (calculate_trade_parameters ind side).entry = ind.close_price ∧
    (side = .long →
      (calculate_trade_parameters ind side).stop_loss =
        custom_round (ind.close_price * 0.98) ∧
      (calculate_trade_parameters ind side).tp1 =
        custom_round ((calculate_trade_parameters ind side).entry +
          ((calculate_trade_parameters ind side).entry -
            (calculate_trade_parameters ind side).stop_loss) * 1.68) ∧
      (calculate_trade_parameters ind side).tp2 =
        custom_round ((calculate_trade_parameters ind side).entry +
          ((calculate_trade_parameters ind side).entry -
            (calculate_trade_parameters ind side).stop_loss) * 2.68) ∧
      (calculate_trade_parameters ind side).tp3 =
        custom_round ((calculate_trade_parameters ind side).entry +
          ((calculate_trade_parameters ind side).entry -
            (calculate_trade_parameters ind side).stop_loss) * 3.68)) ∧
    (side = .short →
      (calculate_trade_parameters ind side).stop_loss =
        custom_round (ind.close_price * 1.02) ∧
      (calculate_trade_parameters ind side).tp1 =
        custom_round ((calculate_trade_parameters ind side).entry -
          ((calculate_trade_parameters ind side).stop_loss -
            (calculate_trade_parameters ind side).entry) * 1.68) ∧
      (calculate_trade_parameters ind side).tp2 =
        custom_round ((calculate_trade_parameters ind side).entry -
          ((calculate_trade_parameters ind side).stop_loss -
            (calculate_trade_parameters ind side).entry) * 2.68) ∧
      (calculate_trade_parameters ind side).tp3 =
        custom_round ((calculate_trade_parameters ind side).entry -
          ((calculate_trade_parameters ind side).stop_loss -
            (calculate_trade_parameters ind side).entry) * 3.68)) := by
  cases side with
  | long =>
    refine ⟨rfl, ?_, ?_⟩
    · exact fun _ => ⟨rfl, rfl, rfl, rfl⟩
    · intro h; cases h
  | short =>
    refine ⟨rfl, ?_, ?_⟩
    · intro h; cases h
    · intro h
      refine ⟨rfl, rfl, ?_, ?_⟩
      · show custom_round (ind.close_price -
            2.68 * (custom_round (ind.close_price * 1.02) - ind.close_price)) =
          custom_round (ind.close_price -
            (custom_round (ind.close_price * 1.02) - ind.close_price) * 2.68)
        exact congrArg custom_round (by ring)
      · show custom_round (ind.close_price -
            3.68 * (custom_round (ind.close_price * 1.02) - ind.close_price)) =
          custom_round (ind.close_price -
            (custom_round (ind.close_price * 1.02) - ind.close_price) * 3.68)
        exact congrArg custom_round (by ring)

/-- Claim C1 witness: the amended statement at close 100, long side. -/
theorem C1_witness :
    0 < baseSnap.close_price ∧
    ((calculate_trade_parameters baseSnap .long).entry =
        baseSnap.close_price ∧
      (Side.long = .long →
        (calculate_trade_parameters baseSnap .long).stop_loss =
          custom_round (baseSnap.close_price * 0.98) ∧
        (calculate_trade_parameters baseSnap .long).tp1 =
          custom_round ((calculate_trade_parameters baseSnap .long).entry +
            ((calculate_trade_parameters baseSnap .long).entry -
              (calculate_trade_parameters baseSnap .long).stop_loss) * 1.68) ∧
        (calculate_trade_parameters baseSnap .long).tp2 =
          custom_round ((calculate_trade_parameters baseSnap .long).entry +
            ((calculate_trade_parameters baseSnap .long).entry -
              (calculate_trade_parameters baseSnap .long).stop_loss) * 2.68) ∧
        (calculate_trade_parameters baseSnap .long).tp3 =
          custom_round ((calculate_trade_parameters baseSnap .long).entry +
            ((calculate_trade_parameters baseSnap .long).entry -
              (calculate_trade_parameters baseSnap .long).stop_loss) * 3.68)) ∧
      (Side.long = .short →
        (calculate_trade_parameters baseSnap .long).stop_loss =
          custom_round (baseSnap.close_price * 1.02) ∧
        (calculate_trade_parameters baseSnap .long).tp1 =
          custom_round ((calculate_trade_parameters baseSnap .long).entry -
            ((calculate_trade_parameters baseSnap .long).stop_loss -
              (calculate_trade_parameters baseSnap .long).entry) * 1.68) ∧
        (calculate_trade_parameters baseSnap .long).tp2 =
          custom_round ((calculate_trade_parameters baseSnap .long).entry -
            ((calculate_trade_parameters baseSnap .long).stop_loss -
              (calculate_trade_parameters baseSnap .long).entry) * 2.68) ∧
        (calculate_trade_parameters baseSnap .long).tp3 =
          custom_round ((calculate_trade_parameters baseSnap .long).entry -
            ((calculate_trade_parameters baseSnap .long).stop_loss -
              (calculate_trade_parameters baseSnap .long).entry) * 3.68))) :=
  ⟨by norm_num [baseSnap],
   C1_trade_parameters_amended baseSnap .long (by norm_num [baseSnap])⟩

/-- Claim C3 (counterexample): closing a trade whose start time matches
no open historical record leaves the history untouched and logs no
error — nothing is fabricated (the claim expects a fabricated end time
and a logged inconsistency in exactly this situation). -/
theorem C3_counterexample :
    updateHistList
        [{ start_time := 5, status := .opened, end_time := none,
           result := .pending }] 7 (some 9) .loss 9 =
      ([{ start_time := 5, status := .opened, end_time := none,
          result := .pending }], false) := rfl

/-- Claim C3 (amended): on a transition into closed, the first open
historical record with the trade's start time is updated with the
trade's end time and the result (no error); the fallback — fabricating
`datetime.now()` as end time and logging an error — happens only when a
matching record exists but the closing trade itself carries no end time;
and when no matching open record exists the history list is returned
unchanged with no error logged (the update silently does nothing rather
than failing). -/
theorem C3_hist_update_amended :
    (∀ (L : List HistRecord) (st : ℤ) (te : Option ℤ) (res : HResult)
        (now : ℤ),
      (∀ h ∈ L, ¬(h.status = .opened ∧ h.start_time = st)) →
      updateHistList L st te res now = (L, false)) ∧
    (∀ (pre post : List HistRecord) (m : HistRecord) (st e now : ℤ)
        (res : HResult),
      (∀ h ∈ pre, ¬(h.status = .opened ∧ h.start_time = st)) →
      m.status = .opened → m.start_time = st →
      updateHistList (pre ++ m :: post) st (some e) res now =
        (pre ++ { m with end_time := some e, result := res } :: post,
         false)) ∧
    (∀ (pre post : List HistRecord) (m : HistRecord) (st now : ℤ)
        (res : HResult),
      (∀ h ∈ pre, ¬(h.status = .opened ∧ h.start_time = st)) →
      m.status = .opened → m.start_time = st →
      updateHistList (pre ++ m :: post) st none res now =
        (pre ++ { m with end_time := some now, result := res } :: post,
         true)) := by
  refine ⟨?_, ?_, ?_⟩
  · intro L st te res now
    induction L with
    | nil => intro _; rfl
    | cons h hs ih =>
      intro hno
      have hh := hno h (List.mem_cons_self h hs)
      have ih' := ih fun x hx => hno x (List.mem_cons_of_mem _ hx)
      simp only [updateHistList, if_neg hh, ih']
  · intro pre post m st e now res hno hm hst
    induction pre with
    | nil =>
      simp only [List.nil_append, updateHistList, if_pos (And.intro hm hst)]
    | cons h hs ih =>
      have hh := hno h (List.mem_cons_self h hs)
      have ih' := ih fun x hx => hno x (List.mem_cons_of_mem _ hx)
      simp [updateHistList, if_neg hh, ih', List.append_eq]
  · intro pre post m st now res hno hm hst
    induction pre with
    | nil =>
      simp only [List.nil_append, updateHistList, if_pos (And.intro hm hst)]
    | cons h hs ih =>
      have hh := hno h (List.mem_cons_self h hs)
      have ih' := ih fun x hx => hno x (List.mem_cons_of_mem _ hx)
      simp [updateHistList, if_neg hh, ih', List.append_eq]

/-- Claim C3 witness: a history of one already-closed record and one
matching open record; the open one is updated in place with the trade's
end time and result, with no error. -/
theorem C3_witness :
    updateHistList
        [{ start_time := 3, status := .closed, end_time := some 4,
           result := .loss },
         { start_time := 5, status := .opened, end_time := none,
           result := .pending }] 5 (some 9) .win 9 =
      ([{ start_time := 3, status := .closed, end_time := some 4,
          result := .loss },
        { start_time := 5, status := .opened, end_time := some 9,
          result := .win }], false) :=
  C3_hist_update_amended.2.1
    [{ start_time := 3, status := .closed, end_time := some 4,
       result := .loss }] []
    { start_time := 5, status := .opened, end_time := none,
      result := .pending } 5 9 9 .win (by decide) rfl rfl

/-- A stop-loss alert this tick implies the one-shot flag is set
afterwards. -/
theorem monitorStep_alert_sets_flag (symbol : String)
    (st : Trade × List (String × SuspendEntry)) (t : TickIn)
    (h : (monitorStep symbol st t).2 = true) :
    (monitorStep symbol st t).1.1.sl_message_sent = true := by
  unfold monitorStep at *
  by_cases hc : st.1.status = .closed
  · simp [hc] at h
  · simp only [if_neg hc] at *
    unfold update_trade_status_core at *
    cases hside : st.1.side <;> simp only [hside] at * <;>
      split_ifs at * <;> simp_all

/-- With the one-shot flag already set, a tick emits no stop-loss alert
and the flag stays set. -/
theorem monitorStep_flag_persists (symbol : String)
    (st : Trade × List (String × SuspendEntry)) (t : TickIn)
    (h : st.1.sl_message_sent = true) :
    (monitorStep symbol st t).2 = false ∧
    (monitorStep symbol st t).1.1.sl_message_sent = true := by
  unfold monitorStep
  by_cases hc : st.1.status = .closed
  · simp [hc, h]
  · simp only [if_neg hc]
    unfold update_trade_status_core
    cases hside : st.1.side <;> simp only [hside] <;>
      split_ifs <;> simp_all

/-- Once the one-shot flag is set, no later tick emits a stop-loss
alert. -/
theorem slAlertCount_flag_set (symbol : String)
    (st : Trade × List (String × SuspendEntry)) (ticks : List TickIn)
    (h : st.1.sl_message_sent = true) :
    slAlertCount symbol st ticks = 0 := by
  induction ticks generalizing st with
  | nil => rfl
  | cons t ts ih =>
    have hp := monitorStep_flag_persists symbol st t h
    simp only [slAlertCount, hp.1, if_neg Bool.false_ne_true, ih _ hp.2]

/-- Claim C9: across any sequence of monitor ticks a trade emits at most
one stop-loss alert — the one-shot `sl_message_sent` flag guards it, no
matter how many ticks observe the price beyond the stop loss. -/
theorem C9_sl_alert_at_most_once (symbol : String)
    (st : Trade × List (String × SuspendEntry)) (ticks : List TickIn) :
    slAlertCount symbol st ticks ≤ 1 := by
  induction ticks generalizing st with
  | nil => exact Nat.zero_le 1
  | cons t ts ih =>
    by_cases ha : (monitorStep symbol st t).2 = true
    · have hflag := monitorStep_alert_sets_flag symbol st t ha
      simp [slAlertCount, ha, slAlertCount_flag_set symbol _ ts hflag]
    · have ha' : (monitorStep symbol st t).2 = false :=
        Bool.eq_false_iff.mpr ha
      simpa only [slAlertCount, ha', if_neg Bool.false_ne_true,
        Nat.zero_add] using ih (monitorStep symbol st t).1

/-! ### Dictionary lemmas -/

theorem dictLookup_insert {α : Type} (m : List (String × α)) (k : String)
    (v : α) : dictLookup (dictInsert m k v) k = some v := by
  induction m with
  | nil => simp [dictInsert, dictLookup]
  | cons p rest ih =>
    by_cases h : p.1 = k
    · simp [dictInsert, dictLookup, h]
    · simpa [dictInsert, dictLookup, h] using ih

theorem dictLookup_eq_none {α : Type} (m : List (String × α)) (k : String)
    (h : k ∉ m.map Prod.fst) : dictLookup m k = none := by
  induction m with
  | nil => rfl
  | cons p rest ih =>
    simp only [List.map_cons, List.mem_cons, not_or] at h
    have hne : ¬p.1 = k := fun hk => h.1 hk.symm
    simpa [dictLookup, hne] using ih h.2

theorem dictLookup_filter_insert {α : Type} (m : List (String × α))
    (k : String) (v : α) (p : String × α → Bool)
    (hnd : (m.map Prod.fst).Nodup) :
    dictLookup ((dictInsert m k v).filter p) k =
      if p (k, v) then some v else none := by
  induction m with
  | nil =>
    by_cases hp : p (k, v) = true <;> simp [dictInsert, dictLookup, hp]
  | cons q rest ih =>
    simp only [List.map_cons, List.nodup_cons] at hnd
    by_cases h : q.1 = k
    · have hrest : dictLookup (rest.filter p) k = none := by
        refine dictLookup_eq_none _ _ fun hk => hnd.1 ?_
        rcases List.mem_map.mp hk with ⟨x, hx, hxk⟩
        exact h ▸ hxk ▸ List.mem_map_of_mem Prod.fst (List.mem_of_mem_filter hx)
      by_cases hp : p (k, v) = true <;>
        simp [dictInsert, h, List.filter, hp, dictLookup, hrest]
    · by_cases hq : p q = true <;>
        simpa [dictInsert, h, List.filter, hq, dictLookup] using ih hnd.2

/-- Inserting a suspension entry for a symbol makes the symbol suspended
exactly until its `suspend_until` (expiry removes it from that moment
on), provided the suspension map has no duplicate keys. -/
theorem is_suspended_insert (m : List (String × SuspendEntry))
    (symbol : String) (e : SuspendEntry) (t : ℤ)
    (hnd : (m.map Prod.fst).Nodup) :
    is_suspended (dictInsert m symbol e) symbol t =
      decide (t < e.suspend_until) := by
  unfold is_suspended expire_suspended
  rw [dictLookup_filter_insert m symbol e _ hnd]
  by_cases hp : t < e.suspend_until <;> simp [hp]

/-- Claim C6: when the TP1 transition fires on an open trade (price at or
beyond TP1, TP1 not yet hit, price not at the stop loss — guaranteed here
by stop loss and TP1 lying on the profitable side of each other), the
trade records TP1 as hit, closes with result `win` and end time `now`,
and the symbol enters `suspend.json` with `suspend_until = now + 7200` —
so it is suspended one second before `suspend_until` and no longer
suspended one second after. -/
theorem C6_tp1_close_and_suspend (symbol : String) (trade : Trade)
    (price : ℚ) (sf : List (String × SuspendEntry)) (now : ℤ)
    (hopen : trade.status = .opened)
    (hnd : (sf.map Prod.fst).Nodup)
    (hnot : "TP1" ∉ trade.hit_tps)
    (hcond : match trade.side with
             | .long => trade.stop_loss < trade.tp1 ∧ trade.tp1 ≤ price
             | .short => trade.tp1 < trade.stop_loss ∧ price ≤ trade.tp1) :
    (update_trade_status_core symbol trade price sf now).closed = true ∧
    (update_trade_status_core symbol trade price sf now).result =
      some .win ∧
    (update_trade_status_core symbol trade price sf now).trade.status =
      .closed ∧
    (update_trade_status_core symbol trade price sf now).trade.end_time =
      some now ∧
    "TP1" ∈ (update_trade_status_core symbol trade price sf now).trade.hit_tps ∧
    dictLookup (update_trade_status_core symbol trade price sf now).suspendFile
        symbol =
      some { trade := (update_trade_status_core symbol trade price sf now).trade,
             suspend_until := now + 7200 } ∧
    is_suspended (update_trade_status_core symbol trade price sf now).suspendFile
        symbol (now + 7200 - 1) = true ∧
    is_suspended (update_trade_status_core symbol trade price sf now).suspendFile
        symbol (now + 7200 + 1) = false := by
  unfold update_trade_status_core
  cases hside : trade.side <;> simp only [hside] at hcond
  · obtain ⟨hsl, htp⟩ := hcond
    have hnsl : ¬(price ≤ trade.stop_loss) := by linarith
    rw [if_neg hnsl, if_pos (And.intro htp hnot)]
    refine ⟨rfl, rfl, rfl, rfl, List.mem_append_right _ (List.mem_singleton_self _),
      dictLookup_insert sf symbol _, ?_, ?_⟩
    · rw [is_suspended_insert sf symbol _ _ hnd]
      simp only [decide_eq_true_eq]
      omega
    · rw [is_suspended_insert sf symbol _ _ hnd]
      simp only [decide_eq_false_iff_not]
      omega
  · obtain ⟨hsl, htp⟩ := hcond
    have hnsl : ¬(trade.stop_loss ≤ price) := by linarith
    rw [if_neg hnsl, if_pos (And.intro htp hnot)]
    refine ⟨rfl, rfl, rfl, rfl, List.mem_append_right _ (List.mem_singleton_self _),
      dictLookup_insert sf symbol _, ?_, ?_⟩
    · rw [is_suspended_insert sf symbol _ _ hnd]
      simp only [decide_eq_true_eq]
      omega
    · rw [is_suspended_insert sf symbol _ _ hnd]
      simp only [decide_eq_false_iff_not]
      omega

/-- Claim C6 witness: the open long trade `tradeW` at price 104, tick
time 1000: it closes as a win and `"BTCUSDT"` is suspended until 8200. -/
theorem C6_witness :
    (tradeW.status = .opened ∧
      (([] : List (String × SuspendEntry)).map Prod.fst).Nodup ∧
      "TP1" ∉ tradeW.hit_tps ∧
      tradeW.stop_loss < tradeW.tp1 ∧ tradeW.tp1 ≤ (104 : ℚ)) ∧
    ((update_trade_status_core "BTCUSDT" tradeW 104 [] 1000).closed = true ∧
      (update_trade_status_core "BTCUSDT" tradeW 104 [] 1000).result =
        some .win ∧
      (update_trade_status_core "BTCUSDT" tradeW 104 [] 1000).trade.status =
        .closed ∧
      (update_trade_status_core "BTCUSDT" tradeW 104 [] 1000).trade.end_time =
        some 1000 ∧
      "TP1" ∈ (update_trade_status_core "BTCUSDT" tradeW 104 [] 1000).trade.hit_tps ∧
      dictLookup
          (update_trade_status_core "BTCUSDT" tradeW 104 [] 1000).suspendFile
          "BTCUSDT" =
        some { trade := (update_trade_status_core "BTCUSDT" tradeW 104 [] 1000).trade,
               suspend_until := 1000 + 7200 } ∧
      is_suspended
          (update_trade_status_core "BTCUSDT" tradeW 104 [] 1000).suspendFile
          "BTCUSDT" (1000 + 7200 - 1) = true ∧
      is_suspended
          (update_trade_status_core "BTCUSDT" tradeW 104 [] 1000).suspendFile
          "BTCUSDT" (1000 + 7200 + 1) = false) :=
  ⟨⟨rfl, List.nodup_nil, by simp [tradeW], by norm_num [tradeW],
      by norm_num [tradeW]⟩,
   C6_tp1_close_and_suspend "BTCUSDT" tradeW 104 [] 1000 rfl List.nodup_nil
     (by simp [tradeW]) (by norm_num [tradeW])⟩

/-! ### Rounding error bounds, for the take-profit ordering -/

theorem halfEven_le (q : ℚ) :
    q - 1/2 ≤ (halfEven q : ℚ) ∧ (halfEven q : ℚ) ≤ q + 1/2 := by
  simp only [halfEven]
  have h1 : ((⌊q⌋ : ℤ) : ℚ) ≤ q := Int.floor_le q
  have h2 : q < (⌊q⌋ : ℤ) + 1 := Int.lt_floor_add_one q
  split_ifs with ha hb hc <;> constructor <;> push_cast at * <;> linarith

theorem round_to_bounds (n : ℕ) (q : ℚ) :
    q - 1/(2 * 10 ^ n) ≤ round_to n q ∧
    round_to n q ≤ q + 1/(2 * 10 ^ n) := by
  have ht : (0:ℚ) < 10 ^ n := by positivity
  have hb := halfEven_le (q * 10 ^ n)
  unfold round_to
  have hl : (q - 1/(2 * 10 ^ n)) * 10 ^ n = q * 10 ^ n - 1/2 := by
    field_simp
    ring
  have hu : (q + 1/(2 * 10 ^ n)) * 10 ^ n = q * 10 ^ n + 1/2 := by
    field_simp
    ring
  constructor
  · rw [le_div_iff₀ ht, hl]
    exact hb.1
  · rw [div_le_iff₀ ht, hu]
    exact hb.2

/-- For inputs at least 0.09, the tiered rounding moves a value by at
most one two-thousandth of itself. -/
theorem custom_round_rel_err (x : ℚ) (hx : 9/100 ≤ x) :
    x - x/2000 ≤ custom_round x ∧ custom_round x ≤ x + x/2000 := by
  unfold custom_round
  split_ifs with h1 h2 h3 h4 h5
  · have hb := halfEven_le x
    constructor <;> linarith [hb.1, hb.2]
  · have hb := round_to_bounds 2 x
    norm_num at hb h2
    constructor <;> linarith [hb.1, hb.2]
  · have hb := round_to_bounds 3 x
    norm_num at hb h3
    constructor <;> linarith [hb.1, hb.2]
  · have hb := round_to_bounds 3 x
    norm_num at hb h4
    constructor <;> linarith [hb.1, hb.2]
  · have hb := round_to_bounds 5 x
    norm_num at hb h5
    constructor <;> linarith [hb.1, hb.2]
  · have hb := round_to_bounds 6 x
    norm_num at hb
    constructor <;> linarith [hb.1, hb.2]

/-- Claim C4 (counterexample): at close price 10⁻⁶ (positive and finite)
the long parameters collapse — the rounded stop loss equals the entry, so
`stop-loss < entry` fails (and with it the claimed strict ordering). -/
theorem C4_counterexample :
    0 < snapMicro.close_price ∧
    ¬((calculate_trade_parameters snapMicro .long).stop_loss <
        (calculate_trade_parameters snapMicro .long).entry) := by
  constructor
  · norm_num [snapMicro, baseSnap]
  · norm_num [calculate_trade_parameters, snapMicro, baseSnap, custom_round,
      round_to, halfEven]

/-- Claim C4 (amended): for a close price of at least 0.1 the computed
levels are strictly ordered away from entry in the profit direction —
long: stop-loss < entry < TP1 < TP2 < TP3; short: TP3 < TP2 < TP1 <
entry < stop-loss.  (For small enough close prices the tiered rounding
collapses the levels, see the counterexample.) -/
theorem C4_tp_ordering_amended (ind : Snapshot)
    (hc : 1/10 ≤ ind.close_price) :
    ((calculate_trade_parameters ind .long).stop_loss <
        (calculate_trade_parameters ind .long).entry ∧
      (calculate_trade_parameters ind .long).entry <
        (calculate_trade_parameters ind .long).tp1 ∧
      (calculate_trade_parameters ind .long).tp1 <
        (calculate_trade_parameters ind .long).tp2 ∧
      (calculate_trade_parameters ind .long).tp2 <
        (calculate_trade_parameters ind .long).tp3) ∧
    ((calculate_trade_parameters ind .short).entry <
        (calculate_trade_parameters ind .short).stop_loss ∧
      (calculate_trade_parameters ind .short).tp1 <
        (calculate_trade_parameters ind .short).entry ∧
      (calculate_trade_parameters ind .short).tp2 <
        (calculate_trade_parameters ind .short).tp1 ∧
      (calculate_trade_parameters ind .short).tp3 <
        (calculate_trade_parameters ind .short).tp2) := by
  have hc0 : (0:ℚ) < ind.close_price := by linarith
  have hs := custom_round_rel_err (ind.close_price * 0.98) (by linarith)
  have hS := custom_round_rel_err (ind.close_price * 1.02) (by linarith)
  have h1 := custom_round_rel_err
    (ind.close_price +
      (ind.close_price - custom_round (ind.close_price * 0.98)) * 1.68)
    (by linarith [hs.2])
  have h2 := custom_round_rel_err
    (ind.close_price +
      (ind.close_price - custom_round (ind.close_price * 0.98)) * 2.68)
    (by linarith [hs.2])
  have h3 := custom_round_rel_err
    (ind.close_price +
      (ind.close_price - custom_round (ind.close_price * 0.98)) * 3.68)
    (by linarith [hs.2])
  have k1 := custom_round_rel_err
    (ind.close_price -
      (custom_round (ind.close_price * 1.02) - ind.close_price) * 1.68)
    (by linarith [hS.2])
  have k2 := custom_round_rel_err
    (ind.close_price -
      2.68 * (custom_round (ind.close_price * 1.02) - ind.close_price))
    (by linarith [hS.2])
  have k3 := custom_round_rel_err
    (ind.close_price -
      3.68 * (custom_round (ind.close_price * 1.02) - ind.close_price))
    (by linarith [hS.2])
  refine ⟨⟨?_, ?_, ?_, ?_⟩, ?_, ?_, ?_, ?_⟩
  · show custom_round (ind.close_price * 0.98) < ind.close_price
    linarith [hs.2]
  · show ind.close_price <
      custom_round (ind.close_price +
        (ind.close_price - custom_round (ind.close_price * 0.98)) * 1.68)
    linarith [h1.1, hs.1, hs.2]
  · show custom_round (ind.close_price +
        (ind.close_price - custom_round (ind.close_price * 0.98)) * 1.68) <
      custom_round (ind.close_price +
        (ind.close_price - custom_round (ind.close_price * 0.98)) * 2.68)
    linarith [h1.2, h2.1, hs.1, hs.2]
  · show custom_round (ind.close_price +
        (ind.close_price - custom_round (ind.close_price * 0.98)) * 2.68) <
      custom_round (ind.close_price +
        (ind.close_price - custom_round (ind.close_price * 0.98)) * 3.68)
    linarith [h2.2, h3.1, hs.1, hs.2]
  · show ind.close_price < custom_round (ind.close_price * 1.02)
    linarith [hS.1]
  · show custom_round (ind.close_price -
        (custom_round (ind.close_price * 1.02) - ind.close_price) * 1.68) <
      ind.close_price
    linarith [k1.2, hS.1, hS.2]
  · show custom_round (ind.close_price -
        2.68 * (custom_round (ind.close_price * 1.02) - ind.close_price)) <
      custom_round (ind.close_price -
        (custom_round (ind.close_price * 1.02) - ind.close_price) * 1.68)
    linarith [k1.1, k2.2, hS.1, hS.2]
  · show custom_round (ind.close_price -
        3.68 * (custom_round (ind.close_price * 1.02) - ind.close_price)) <
      custom_round (ind.close_price -
        2.68 * (custom_round (ind.close_price * 1.02) - ind.close_price))
    linarith [k2.1, k3.2, hS.1, hS.2]

/-- Claim C4 witness: the amended ordering at close price 100. -/
theorem C4_witness :
    1/10 ≤ baseSnap.close_price ∧
    (((calculate_trade_parameters baseSnap .long).stop_loss <
        (calculate_trade_parameters baseSnap .long).entry ∧
      (calculate_trade_parameters baseSnap .long).entry <
        (calculate_trade_parameters baseSnap .long).tp1 ∧
      (calculate_trade_parameters baseSnap .long).tp1 <
        (calculate_trade_parameters baseSnap .long).tp2 ∧
      (calculate_trade_parameters baseSnap .long).tp2 <
        (calculate_trade_parameters baseSnap .long).tp3) ∧
    ((calculate_trade_parameters baseSnap .short).entry <
        (calculate_trade_parameters baseSnap .short).stop_loss ∧
      (calculate_trade_parameters baseSnap .short).tp1 <
        (calculate_trade_parameters baseSnap .short).entry ∧
      (calculate_trade_parameters baseSnap .short).tp2 <
        (calculate_trade_parameters baseSnap .short).tp1 ∧
      (calculate_trade_parameters baseSnap .short).tp3 <
        (calculate_trade_parameters baseSnap .short).tp2)) :=
  ⟨by norm_num [baseSnap],
   C4_tp_ordering_amended baseSnap (by norm_num [baseSnap])⟩

end VPScope
